import Mathlib

/-!
Verification of the STM-ADB portal backend's schedule-conflict, attendance,
pagination and error-mapping logic, shallowly embedded from the JavaScript
sources (scheduleService.js, scheduleController.js, the attendance service,
the Pagination helper of utils/helpers and the global error handler of the
middleware layer).

Times of day are modelled as seconds since midnight (the database column is a
time-of-day column, and the service compares Date values that share a common
date anchor, so chronological comparison coincides with comparison of the
second-of-day values).  Identifiers (BigInt in the source) are modelled as
natural numbers; nullable columns as Option.
-/

namespace STMADB

/-- Overlap predicate of the specification: the half-open intervals
[s1,e1) and [s2,e2) overlap when s1 < e2 and s2 < e1. -/
def specOverlap (s1 e1 s2 e2 : Nat) : Prop :=
  s1 < e2 ∧ s2 < e1

instance specOverlap.decidable (s1 e1 s2 e2 : Nat) :
    Decidable (specOverlap s1 e1 s2 e2) :=
  inferInstanceAs (Decidable (_ ∧ _))

/-- The three-case OR filter that checkScheduleConflicts puts in its Prisma
whereClause, applied to a candidate interval [s1,e1) and the row's stored
interval [s2,e2): (start_time <= s1 and end_time > s1) or
(start_time < e1 and end_time >= e1) or
(start_time >= s1 and end_time <= e1). -/
def overlapWhere (s1 e1 s2 e2 : Nat) : Bool :=
  (decide (s2 ≤ s1) && decide (e2 > s1)) ||
  (decide (s2 < e1) && decide (e2 ≥ e1)) ||
  (decide (s2 ≥ s1) && decide (e2 ≤ e1))

/-- The spec overlap predicate implies the code's three-case filter, with no
assumption on the orientation of either interval. -/
theorem specOverlap_imp_overlapWhere {s1 e1 s2 e2 : Nat}
    (h : specOverlap s1 e1 s2 e2) : overlapWhere s1 e1 s2 e2 = true := by
  rcases h with ⟨h1, h2⟩
  unfold overlapWhere
  simp only [Bool.or_eq_true, Bool.and_eq_true, decide_eq_true_eq]
  omega

/-- For genuinely ordered intervals the code filter agrees with the spec
overlap predicate. -/
theorem overlapWhere_iff_specOverlap {s1 e1 s2 e2 : Nat}
    (h1 : s1 < e1) (h2 : s2 < e2) :
    overlapWhere s1 e1 s2 e2 = true ↔ specOverlap s1 e1 s2 e2 := by
  constructor
  · intro h
    unfold overlapWhere at h
    simp only [Bool.or_eq_true, Bool.and_eq_true, decide_eq_true_eq] at h
    unfold specOverlap
    omega
  · exact specOverlap_imp_overlapWhere

end STMADB

namespace STMADB

/-- Lookup environment for the related records (class, subject, teacher) that
checkScheduleConflicts includes in order to build its error messages. -/
structure NameEnv where
  className : Nat → String
  subjectName : Nat → String
  teacherName : Nat → String

/-- Row of the schedule table, as used by the conflict logic.  The column
start_time and end_time hold times of day in seconds. -/
structure Schedule where
  id : Nat
  class_id : Nat
  subject_id : Nat
  teacher_id : Nat
  day_of_week : String
  start_time : Nat
  end_time : Nat
  room : Option String
deriving Repr, DecidableEq

/-- Candidate data handed to checkScheduleConflicts (the create payload, or
the merge of an existing row with the update payload). -/
structure ScheduleInput where
  class_id : Nat
  subject_id : Nat
  teacher_id : Nat
  day_of_week : String
  start_time : Nat
  end_time : Nat
  room : Option String
deriving Repr, DecidableEq

/-- JavaScript truthiness of the nullable room value: null and the empty
string are falsy, every other string is truthy. -/
def roomTruthy : Option String → Bool
  | none => false
  | some s => s != ""

/-- Row filter shared by the three conflict queries of
checkScheduleConflicts: same day_of_week, the three-case time window, and,
when an excluded id was passed, a different id. -/
def conflictRowMatch (d : ScheduleInput) (excludeId : Option Nat)
    (r : Schedule) : Bool :=
  (r.day_of_week == d.day_of_week) &&
  overlapWhere d.start_time d.end_time r.start_time r.end_time &&
  (match excludeId with
   | some i => r.id != i
   | none => true)

/-- Rows returned by the teacher-conflict query. -/
def teacherConflicts (d : ScheduleInput) (excludeId : Option Nat)
    (store : List Schedule) : List Schedule :=
  store.filter (fun r => conflictRowMatch d excludeId r &&
    (r.teacher_id == d.teacher_id))

/-- Rows returned by the class-conflict query. -/
def classConflicts (d : ScheduleInput) (excludeId : Option Nat)
    (store : List Schedule) : List Schedule :=
  store.filter (fun r => conflictRowMatch d excludeId r &&
    (r.class_id == d.class_id))

/-- Rows returned by the room-conflict query (only issued for a truthy
room). -/
def roomConflicts (d : ScheduleInput) (excludeId : Option Nat) (room : String)
    (store : List Schedule) : List Schedule :=
  store.filter (fun r => conflictRowMatch d excludeId r &&
    (r.room == some room))

/-- Message thrown on a teacher conflict, interpolating the colliding row's
class and subject names. -/
def teacherConflictMsg (env : NameEnv) (r : Schedule) : String :=
  "Teacher conflict detected. Teacher already has schedule at this time for "
    ++ env.className r.class_id ++ " - " ++ env.subjectName r.subject_id

/-- Message thrown on a class conflict.  The source interpolates
subject.name, a field absent from the included subject record (whose field
is subject_name), so JavaScript renders the literal text undefined. -/
def classConflictMsg (env : NameEnv) (r : Schedule) : String :=
  "Class conflict detected. Class already has schedule at this time with "
    ++ env.teacherName r.teacher_id ++ " for undefined"

/-- Message thrown on a room conflict. -/
def roomConflictMsg (env : NameEnv) (room : String) (r : Schedule) : String :=
  "Room " ++ room ++ " is already booked at this time for "
    ++ env.className r.class_id

/-- The conflict check of scheduleService: teacher query first, then class
query, then, when the candidate's room is truthy, the room query; the first
nonempty result aborts with its message. -/
def checkScheduleConflicts (env : NameEnv) (d : ScheduleInput)
    (excludeId : Option Nat) (store : List Schedule) : Except String Unit :=
  match teacherConflicts d excludeId store with
  | r :: _ => .error (teacherConflictMsg env r)
  | [] =>
    match classConflicts d excludeId store with
    | r :: _ => .error (classConflictMsg env r)
    | [] =>
      match d.room with
      | none => .ok ()
      | some room =>
        if room = "" then .ok ()
        else
          match roomConflicts d excludeId room store with
          | r :: _ => .error (roomConflictMsg env room r)
          | [] => .ok ()

/-- Persistent schedule state: the table content plus the next id the
database will assign. -/
structure ScheduleState where
  nextId : Nat
  schedules : List Schedule
deriving Repr, DecidableEq

/-- Row written by createSchedule: the payload fields, with a falsy room
stored as null (the source writes room or-else null). -/
def insertedRow (d : ScheduleInput) (id : Nat) : Schedule :=
  { id := id, class_id := d.class_id, subject_id := d.subject_id,
    teacher_id := d.teacher_id, day_of_week := d.day_of_week,
    start_time := d.start_time, end_time := d.end_time,
    room := if roomTruthy d.room then d.room else none }

/-- createSchedule: run the conflict check with no excluded id; on success
insert the new row, otherwise rethrow and leave the table unchanged. -/
def createSchedule (env : NameEnv) (d : ScheduleInput) (st : ScheduleState) :
    Except String ScheduleState :=
  match checkScheduleConflicts env d none st.schedules with
  | .error m => .error m
  | .ok _ => .ok { nextId := st.nextId + 1,
                   schedules := st.schedules ++ [insertedRow d st.nextId] }

/-- Update payload of updateSchedule; a missing field leaves the column
unchanged, and the room field distinguishes absent (none) from an explicit
null (some none). -/
structure ScheduleUpdate where
  class_id : Option Nat
  subject_id : Option Nat
  teacher_id : Option Nat
  day_of_week : Option String
  start_time : Option Nat
  end_time : Option Nat
  room : Option (Option String)
deriving Repr, DecidableEq

/-- The update payload with no field present. -/
def emptyUpdate : ScheduleUpdate :=
  { class_id := none, subject_id := none, teacher_id := none,
    day_of_week := none, start_time := none, end_time := none, room := none }

/-- Merge an existing row with an update payload, mirroring the truthiness
guards of updateSchedule (ids and times are applied when present — the
validated payloads only carry truthy values there — an empty day string is
falsy and skipped, and the room is applied whenever it is not undefined). -/
def applyUpdate (r : Schedule) (u : ScheduleUpdate) : Schedule :=
  { id := r.id,
    class_id := u.class_id.getD r.class_id,
    subject_id := u.subject_id.getD r.subject_id,
    teacher_id := u.teacher_id.getD r.teacher_id,
    day_of_week := match u.day_of_week with
      | some d => if d = "" then r.day_of_week else d
      | none => r.day_of_week,
    start_time := u.start_time.getD r.start_time,
    end_time := u.end_time.getD r.end_time,
    room := u.room.getD r.room }

/-- View of a table row as conflict-check input (the spread of the merged
row in updateSchedule). -/
def toInput (r : Schedule) : ScheduleInput :=
  { class_id := r.class_id, subject_id := r.subject_id,
    teacher_id := r.teacher_id, day_of_week := r.day_of_week,
    start_time := r.start_time, end_time := r.end_time, room := r.room }

/-- updateSchedule: look the row up, merge the payload over it, run the
conflict check with the row's id excluded, then write the merged data. -/
def updateSchedule (env : NameEnv) (i : Nat) (u : ScheduleUpdate)
    (st : ScheduleState) : Except String ScheduleState :=
  match st.schedules.find? (fun r => r.id == i) with
  | none => .error "Schedule not found"
  | some existing =>
    match checkScheduleConflicts env (toInput (applyUpdate existing u))
        (some i) st.schedules with
    | .error m => .error m
    | .ok _ => .ok { nextId := st.nextId,
                     schedules := st.schedules.map
                       (fun r => if r.id == i
                                 then applyUpdate existing u else r) }

/-- deleteSchedule: look the row up and remove it; the catch block of the
source replaces every failure message, including the not-found one, with a
generic one. -/
def deleteSchedule (i : Nat) (st : ScheduleState) :
    Except String ScheduleState :=
  match st.schedules.find? (fun r => r.id == i) with
  | none => .error "Failed to delete schedule"
  | some _ => .ok { nextId := st.nextId,
                    schedules := st.schedules.filter (fun r => r.id != i) }

end STMADB

namespace STMADB

/-- C2: the three-case disjunction of checkScheduleConflicts is not
equivalent to the spec overlap predicate on arbitrary interval endpoints:
with the empty candidate interval [28800,28800) (08:00:00 to 08:00:00, a
shape the time-string validation does not exclude) against the existing
interval [28800,32400), the code filter fires while the spec predicate is
false. -/
theorem C2_counterexample :
    overlapWhere 28800 28800 28800 32400 = true ∧
      ¬ specOverlap 28800 28800 28800 32400 := by
  constructor
  · decide
  · decide

/-- C2 (amended): for nonempty (well-oriented) intervals, that is when
s1 < e1 and s2 < e2, the three-case disjunction used by
checkScheduleConflicts holds exactly when the spec overlap predicate
s1 < e2 and s2 < e1 holds. -/
theorem C2_overlapWhere_equiv_spec (s1 e1 s2 e2 : Nat)
    (h1 : s1 < e1) (h2 : s2 < e2) :
    overlapWhere s1 e1 s2 e2 = true ↔ specOverlap s1 e1 s2 e2 :=
  overlapWhere_iff_specOverlap h1 h2

/-- Witness for C2: the equivalence evaluated on the concrete intervals
[28800,32400) and [30000,33000). -/
theorem C2_overlapWhere_equiv_spec_witness :
    (28800 : Nat) < 32400 ∧ (30000 : Nat) < 33000 ∧
      (overlapWhere 28800 32400 30000 33000 = true ↔
        specOverlap 28800 32400 30000 33000) :=
  ⟨by decide, by decide,
    C2_overlapWhere_equiv_spec 28800 32400 30000 33000 (by decide) (by decide)⟩

/-- Filtering by a weaker boolean test first does not change a filter whose
test implies it. -/
theorem filter_absorb {α : Type} (p q : α → Bool) (l : List α)
    (h : ∀ a, p a = true → q a = true) :
    (l.filter q).filter p = l.filter p := by
  induction l with
  | nil => rfl
  | cons a t ih =>
    by_cases hp : p a = true
    · have hq := h a hp
      simp [List.filter_cons, hq, hp, ih]
    · have hp' : p a = false := by revert hp; cases p a <;> simp
      by_cases hq : q a = true
      · simp [List.filter_cons, hq, hp', ih]
      · have hq' : q a = false := by revert hq; cases q a <;> simp
        simp [List.filter_cons, hq', hp', ih]

/-- A row matching the shared conflict filter with an excluded id has a
different id. -/
theorem conflictRowMatch_excludes {d : ScheduleInput} {i : Nat} {r : Schedule}
    (h : conflictRowMatch d (some i) r = true) : (r.id != i) = true := by
  unfold conflictRowMatch at h
  simp only [Bool.and_eq_true] at h
  exact h.2

/-- The teacher-conflict query ignores the excluded row. -/
theorem teacherConflicts_erase_self (d : ScheduleInput) (i : Nat)
    (store : List Schedule) :
    teacherConflicts d (some i) (store.filter (fun r => r.id != i)) =
      teacherConflicts d (some i) store := by
  unfold teacherConflicts
  apply filter_absorb
  intro a ha
  simp only [Bool.and_eq_true] at ha
  exact conflictRowMatch_excludes ha.1

/-- The class-conflict query ignores the excluded row. -/
theorem classConflicts_erase_self (d : ScheduleInput) (i : Nat)
    (store : List Schedule) :
    classConflicts d (some i) (store.filter (fun r => r.id != i)) =
      classConflicts d (some i) store := by
  unfold classConflicts
  apply filter_absorb
  intro a ha
  simp only [Bool.and_eq_true] at ha
  exact conflictRowMatch_excludes ha.1

/-- The room-conflict query ignores the excluded row. -/
theorem roomConflicts_erase_self (d : ScheduleInput) (i : Nat) (room : String)
    (store : List Schedule) :
    roomConflicts d (some i) room (store.filter (fun r => r.id != i)) =
      roomConflicts d (some i) room store := by
  unfold roomConflicts
  apply filter_absorb
  intro a ha
  simp only [Bool.and_eq_true] at ha
  exact conflictRowMatch_excludes ha.1

/-- Merging the empty payload leaves the row unchanged. -/
theorem applyUpdate_empty (r : Schedule) : applyUpdate r emptyUpdate = r := rfl

/-- C8: the conflict check run by updateSchedule never sees the row being
updated: its result on any store equals its result on the store with the
excluded id's rows removed (the shared whereClause carries the id-not-equal
condition into all three queries); consequently an update that changes
nothing on a store holding just that schedule reports no conflict and leaves
the store unchanged. -/
theorem C8_update_excludes_self :
    (∀ (env : NameEnv) (d : ScheduleInput) (i : Nat) (store : List Schedule),
      checkScheduleConflicts env d (some i) store =
        checkScheduleConflicts env d (some i)
          (store.filter (fun r => r.id != i))) ∧
    (∀ (env : NameEnv) (n : Nat) (s : Schedule),
      updateSchedule env s.id emptyUpdate ⟨n, [s]⟩ =
        Except.ok ⟨n, [s]⟩) := by
  constructor
  · intro env d i store
    unfold checkScheduleConflicts
    rw [teacherConflicts_erase_self, classConflicts_erase_self]
    cases d.room with
    | none => rfl
    | some room =>
      by_cases hroom : room = ""
      · simp [hroom]
      · simp [hroom, roomConflicts_erase_self]
  · intro env n s
    have hmatch : conflictRowMatch (toInput s) (some s.id) s = false := by
      unfold conflictRowMatch
      simp
    unfold updateSchedule
    simp only [List.find?_cons, beq_self_eq_true, if_pos, applyUpdate_empty]
    have hcheck :
        checkScheduleConflicts env (toInput s) (some s.id) [s] =
          Except.ok () := by
      unfold checkScheduleConflicts teacherConflicts classConflicts
      simp only [List.filter_cons, hmatch, Bool.false_and, List.filter_nil]
      cases htr : (toInput s).room with
      | none => rfl
      | some room =>
        by_cases hroom : room = ""
        · simp [hroom]
        · unfold roomConflicts
          simp [hroom, hmatch]
    simp only [hcheck]
    simp [applyUpdate_empty]

/-- Two rows clash on an entity: same teacher, same class, or the same
non-null room. -/
def entityClash (a b : Schedule) : Prop :=
  a.teacher_id = b.teacher_id ∨ a.class_id = b.class_id ∨
    (a.room ≠ none ∧ a.room = b.room)

/-- Two rows are compatible when they do not share a day, an overlapping
time interval and an entity. -/
def Compatible (a b : Schedule) : Prop :=
  ¬(a.day_of_week = b.day_of_week ∧
    specOverlap a.start_time a.end_time b.start_time b.end_time ∧
    entityClash a b)

/-- The no-double-booking invariant of the table. -/
def NoOverlaps (l : List Schedule) : Prop := l.Pairwise Compatible

/-- Pairwise well-formedness: compatibility plus distinct ids. -/
def GoodPair (a b : Schedule) : Prop := Compatible a b ∧ a.id ≠ b.id

/-- Well-formed state: pairwise good rows, no empty-string rooms (the route
validation rejects the empty string, and createSchedule stores falsy rooms
as null), and every id below the next id the database will assign. -/
def StateWF (st : ScheduleState) : Prop :=
  st.schedules.Pairwise GoodPair ∧
    ∀ r ∈ st.schedules, r.room ≠ some "" ∧ r.id < st.nextId

/-- States reachable through the service operations from an empty table,
with update payloads restricted to validated rooms (the route validation
rejects the empty string). -/
inductive Reachable : ScheduleState → Prop where
  | init : Reachable ⟨1, []⟩
  | create {st st' : ScheduleState} {env : NameEnv} {d : ScheduleInput} :
      Reachable st → createSchedule env d st = Except.ok st' → Reachable st'
  | update {st st' : ScheduleState} {env : NameEnv} {i : Nat}
      {u : ScheduleUpdate} : Reachable st → u.room ≠ some (some "") →
      updateSchedule env i u st = Except.ok st' → Reachable st'
  | delete {st st' : ScheduleState} {i : Nat} :
      Reachable st → deleteSchedule i st = Except.ok st' → Reachable st'

/-- Successful createSchedule means the conflict check passed and the new
row was appended. -/
theorem createSchedule_ok_elim {env : NameEnv} {d : ScheduleInput}
    {st st' : ScheduleState} (h : createSchedule env d st = Except.ok st') :
    checkScheduleConflicts env d none st.schedules = Except.ok () ∧
      st' = { nextId := st.nextId + 1,
              schedules := st.schedules ++ [insertedRow d st.nextId] } := by
  unfold createSchedule at h
  split at h
  · exact absurd h (by simp)
  · rename_i v hc
    cases v
    injection h with h
    exact ⟨hc, h.symm⟩

/-- Successful updateSchedule means the row was found, the conflict check on
the merged data passed with the row's id excluded, and the merged data was
written in place. -/
theorem updateSchedule_ok_elim {env : NameEnv} {i : Nat} {u : ScheduleUpdate}
    {st st' : ScheduleState} (h : updateSchedule env i u st = Except.ok st') :
    ∃ e, st.schedules.find? (fun r => r.id == i) = some e ∧
      checkScheduleConflicts env (toInput (applyUpdate e u)) (some i)
        st.schedules = Except.ok () ∧
      st' = { nextId := st.nextId,
              schedules := st.schedules.map
                (fun r => if r.id == i then applyUpdate e u else r) } := by
  unfold updateSchedule at h
  split at h
  · exact absurd h (by simp)
  · rename_i e hf
    refine ⟨e, hf, ?_⟩
    split at h
    · exact absurd h (by simp)
    · rename_i v hc
      cases v
      injection h with h
      exact ⟨hc, h.symm⟩

/-- Successful deleteSchedule means the row was found and filtered out. -/
theorem deleteSchedule_ok_elim {i : Nat} {st st' : ScheduleState}
    (h : deleteSchedule i st = Except.ok st') :
    st' = { nextId := st.nextId,
            schedules := st.schedules.filter (fun r => r.id != i) } := by
  unfold deleteSchedule at h
  split at h
  · exact absurd h (by simp)
  · injection h with h
    exact h.symm

/-- Passing the conflict check means all three queries were empty. -/
theorem check_ok_sound {env : NameEnv} {d : ScheduleInput} {ex : Option Nat}
    {store : List Schedule}
    (h : checkScheduleConflicts env d ex store = Except.ok ()) :
    teacherConflicts d ex store = [] ∧ classConflicts d ex store = [] ∧
      ∀ x, d.room = some x → x ≠ "" → roomConflicts d ex x store = [] := by
  unfold checkScheduleConflicts at h
  split at h
  · exact absurd h (by simp)
  rename_i ht
  split at h
  · exact absurd h (by simp)
  rename_i hc
  refine ⟨ht, hc, ?_⟩
  intro x hx hne
  split at h
  · rename_i hnone
    rw [hx] at hnone
    exact absurd hnone (by simp)
  · rename_i room hsome
    rw [hx] at hsome
    injection hsome with hsome
    subst hsome
    split at h
    · rename_i hq
      exact absurd hq hne
    · split at h
      · exact absurd h (by simp)
      · rename_i hr
        exact hr

/-- Entity clashes are symmetric. -/
theorem entityClash_symm {a b : Schedule} (h : entityClash a b) :
    entityClash b a := by
  rcases h with h | h | ⟨hn, he⟩
  · exact Or.inl h.symm
  · exact Or.inr (Or.inl h.symm)
  · exact Or.inr (Or.inr ⟨he ▸ hn, he.symm⟩)

/-- Compatibility is symmetric. -/
theorem Compatible_symm {a b : Schedule} (h : Compatible a b) :
    Compatible b a := by
  rintro ⟨hday, hov, hclash⟩
  exact h ⟨hday.symm, ⟨hov.2, hov.1⟩, entityClash_symm hclash⟩

/-- The stored row a candidate produces agrees with the candidate on all
conflict-relevant columns, and its room, when present, is a nonempty string
the candidate also carries. -/
def CandidateFits (d : ScheduleInput) (c : Schedule) : Prop :=
  c.day_of_week = d.day_of_week ∧ c.start_time = d.start_time ∧
  c.end_time = d.end_time ∧ c.teacher_id = d.teacher_id ∧
  c.class_id = d.class_id ∧
  ∀ x, c.room = some x → x ≠ "" ∧ d.room = some x

/-- A row that survives the conflict check is compatible with the row the
candidate will store. -/
theorem check_ok_compatible {env : NameEnv} {d : ScheduleInput}
    {ex : Option Nat} {store : List Schedule}
    (h : checkScheduleConflicts env d ex store = Except.ok ())
    {c : Schedule} (hc : CandidateFits d c) {r : Schedule} (hr : r ∈ store)
    (hex : ∀ i, ex = some i → r.id ≠ i) :
    Compatible r c := by
  obtain ⟨ht, hcl, hro⟩ := check_ok_sound h
  rintro ⟨hday, hov, hclash⟩
  obtain ⟨hcday, hcs, hce, hcteach, hcclass, hcroom⟩ := hc
  have hov' : specOverlap d.start_time d.end_time r.start_time r.end_time := by
    rcases hov with ⟨o1, o2⟩
    exact ⟨hcs ▸ o2, hce ▸ o1⟩
  have hmatch : conflictRowMatch d ex r = true := by
    unfold conflictRowMatch
    simp only [Bool.and_eq_true, beq_iff_eq]
    refine ⟨⟨hday.trans hcday, specOverlap_imp_overlapWhere hov'⟩, ?_⟩
    cases ex with
    | none => rfl
    | some i => simp [hex i rfl]
  rcases hclash with hteq | hceq | ⟨hrn, hre⟩
  · have hmem : r ∈ teacherConflicts d ex store := by
      unfold teacherConflicts
      rw [List.mem_filter]
      exact ⟨hr, by simp [hmatch, hteq.trans hcteach]⟩
    rw [ht] at hmem
    exact absurd hmem (List.not_mem_nil r)
  · have hmem : r ∈ classConflicts d ex store := by
      unfold classConflicts
      rw [List.mem_filter]
      exact ⟨hr, by simp [hmatch, hceq.trans hcclass]⟩
    rw [hcl] at hmem
    exact absurd hmem (List.not_mem_nil r)
  · cases hrr : r.room with
    | none => exact hrn hrr
    | some x =>
      have hcx : c.room = some x := by rw [← hre, hrr]
      obtain ⟨hxne, hdx⟩ := hcroom x hcx
      have hempty := hro x hdx hxne
      have hmem : r ∈ roomConflicts d ex x store := by
        unfold roomConflicts
        rw [List.mem_filter]
        exact ⟨hr, by simp [hmatch, hrr]⟩
      rw [hempty] at hmem
      exact absurd hmem (List.not_mem_nil r)

/-- When some row of the store matches the shared filter and clashes with
the candidate on teacher, class or a truthy room, the conflict check
reports an error. -/
theorem check_error_of_conflict {env : NameEnv} {d : ScheduleInput}
    {ex : Option Nat} {store : List Schedule} {r : Schedule}
    (hr : r ∈ store) (hm : conflictRowMatch d ex r = true)
    (hclash : r.teacher_id = d.teacher_id ∨ r.class_id = d.class_id ∨
      ∃ x, x ≠ "" ∧ d.room = some x ∧ r.room = some x) :
    ∃ m, checkScheduleConflicts env d ex store = Except.error m := by
  cases hk : checkScheduleConflicts env d ex store with
  | error m => exact ⟨m, rfl⟩
  | ok v =>
    cases v
    exfalso
    obtain ⟨ht, hcl, hro⟩ := check_ok_sound hk
    rcases hclash with he | he | ⟨x, hx, hdx, hrx⟩
    · have hmem : r ∈ teacherConflicts d ex store := by
        unfold teacherConflicts
        rw [List.mem_filter]
        exact ⟨hr, by simp [hm, he]⟩
      rw [ht] at hmem
      exact absurd hmem (List.not_mem_nil r)
    · have hmem : r ∈ classConflicts d ex store := by
        unfold classConflicts
        rw [List.mem_filter]
        exact ⟨hr, by simp [hm, he]⟩
      rw [hcl] at hmem
      exact absurd hmem (List.not_mem_nil r)
    · have hempty := hro x hdx hx
      have hmem : r ∈ roomConflicts d ex x store := by
        unfold roomConflicts
        rw [List.mem_filter]
        exact ⟨hr, by simp [hm, hrx]⟩
      rw [hempty] at hmem
      exact absurd hmem (List.not_mem_nil r)

/-- The row createSchedule stores fits its payload. -/
theorem insertedRow_fits (d : ScheduleInput) (id : Nat) :
    CandidateFits d (insertedRow d id) := by
  refine ⟨rfl, rfl, rfl, rfl, rfl, ?_⟩
  intro x hx
  simp only [insertedRow] at hx
  by_cases htr : roomTruthy d.room = true
  · rw [if_pos htr] at hx
    refine ⟨?_, hx⟩
    rw [hx] at htr
    simpa [roomTruthy] using htr
  · rw [if_neg htr] at hx
    exact absurd hx (by simp)

/-- The row createSchedule stores never holds the empty string as room. -/
theorem insertedRow_room_ok (d : ScheduleInput) (id : Nat) :
    (insertedRow d id).room ≠ some "" := by
  simp only [insertedRow]
  by_cases htr : roomTruthy d.room = true
  · rw [if_pos htr]
    intro hceq
    rw [hceq] at htr
    simp [roomTruthy] at htr
  · rw [if_neg htr]
    simp

/-- createSchedule preserves well-formedness. -/
theorem createSchedule_wf {env : NameEnv} {d : ScheduleInput}
    {st st' : ScheduleState} (h : createSchedule env d st = Except.ok st')
    (hw : StateWF st) : StateWF st' := by
  obtain ⟨hchk, rfl⟩ := createSchedule_ok_elim h
  obtain ⟨hpw, hrow⟩ := hw
  constructor
  · rw [List.pairwise_append]
    refine ⟨hpw, by simp, ?_⟩
    intro a ha b hb
    rw [List.mem_singleton] at hb
    subst hb
    constructor
    · exact check_ok_compatible hchk (insertedRow_fits d st.nextId) ha
        (fun i hi => by cases hi)
    · have := (hrow a ha).2
      simp only [insertedRow]
      omega
  · intro r hrm
    rw [List.mem_append] at hrm
    rcases hrm with hin | hin
    · exact ⟨(hrow r hin).1, Nat.lt_succ_of_lt (hrow r hin).2⟩
    · rw [List.mem_singleton] at hin
      subst hin
      exact ⟨insertedRow_room_ok d st.nextId, by simp [insertedRow]⟩

/-- updateSchedule with a validated room payload preserves
well-formedness. -/
theorem updateSchedule_wf {env : NameEnv} {i : Nat} {u : ScheduleUpdate}
    {st st' : ScheduleState} (hu : u.room ≠ some (some ""))
    (h : updateSchedule env i u st = Except.ok st') (hw : StateWF st) :
    StateWF st' := by
  obtain ⟨e, hf, hchk, rfl⟩ := updateSchedule_ok_elim h
  obtain ⟨hpw, hrow⟩ := hw
  have hei : e.id = i := by
    have := List.find?_some hf
    simpa using this
  have hem : e ∈ st.schedules := List.mem_of_find?_eq_some hf
  have hmroom : (applyUpdate e u).room ≠ some "" := by
    simp only [applyUpdate]
    cases hur : u.room with
    | none => simpa using (hrow e hem).1
    | some rr =>
      simp only [Option.getD_some]
      intro hceq
      exact hu (by rw [hur, hceq])
  have hmid : (applyUpdate e u).id = i := hei
  have hfits : CandidateFits (toInput (applyUpdate e u)) (applyUpdate e u) := by
    refine ⟨rfl, rfl, rfl, rfl, rfl, ?_⟩
    intro x hx
    refine ⟨?_, hx⟩
    intro hxe
    exact hmroom (by rw [hx, hxe])
  constructor
  · rw [List.pairwise_map]
    refine List.Pairwise.imp_of_mem ?_ hpw
    intro a b ha hb hab
    by_cases hai : (a.id == i) = true
    · by_cases hbi : (b.id == i) = true
      · exact absurd ((beq_iff_eq.mp hai).trans (beq_iff_eq.mp hbi).symm) hab.2
      · rw [if_pos hai, if_neg hbi]
        have hbne : b.id ≠ i := by simpa using hbi
        refine ⟨?_, ?_⟩
        · exact Compatible_symm
            (check_ok_compatible hchk hfits hb (fun j hj => by
              injection hj with hj; exact hj ▸ hbne))
        · rw [hmid]; exact fun hcon => hbne hcon.symm
    · by_cases hbi : (b.id == i) = true
      · rw [if_neg hai, if_pos hbi]
        have hane : a.id ≠ i := by simpa using hai
        refine ⟨?_, ?_⟩
        · exact check_ok_compatible hchk hfits ha (fun j hj => by
            injection hj with hj; exact hj ▸ hane)
        · rw [hmid]; exact hane
      · rw [if_neg hai, if_neg hbi]
        exact hab
  · intro r hrm
    rw [List.mem_map] at hrm
    obtain ⟨a, ha, rfl⟩ := hrm
    by_cases hai : (a.id == i) = true
    · rw [if_pos hai]
      exact ⟨hmroom, by rw [hmid]; rw [← hei]; exact (hrow e hem).2⟩
    · rw [if_neg hai]
      exact hrow a ha

/-- deleteSchedule preserves well-formedness. -/
theorem deleteSchedule_wf {i : Nat} {st st' : ScheduleState}
    (h : deleteSchedule i st = Except.ok st') (hw : StateWF st) :
    StateWF st' := by
  obtain rfl := deleteSchedule_ok_elim h
  obtain ⟨hpw, hrow⟩ := hw
  constructor
  · exact List.Pairwise.sublist (List.filter_sublist _) hpw
  · intro r hr
    exact hrow r (List.mem_of_mem_filter hr)

/-- Every reachable state is well-formed. -/
theorem reachable_wf {st : ScheduleState} (h : Reachable st) : StateWF st := by
  induction h with
  | init => exact ⟨List.Pairwise.nil, by intro r hr; cases hr⟩
  | create _ hok ih => exact createSchedule_wf hok ih
  | update _ hu hok ih => exact updateSchedule_wf hu hok ih
  | delete _ hok ih => exact deleteSchedule_wf hok ih

/-- C1: a candidate that shares a day and a teacher, class or (non-null)
room with an existing schedule whose interval intersects it is rejected by
createSchedule and by updateSchedule (the merged update data playing the
candidate, rows other than the updated one playing the existing schedule),
the table being left unchanged since the error precedes the write; hence
every state reachable through the service operations satisfies the
no-double-booking invariant. -/
theorem C1_no_double_booking :
    (∀ (env : NameEnv) (d : ScheduleInput) (st : ScheduleState)
        (r : Schedule), r ∈ st.schedules →
      r.day_of_week = d.day_of_week →
      specOverlap d.start_time d.end_time r.start_time r.end_time →
      (r.teacher_id = d.teacher_id ∨ r.class_id = d.class_id ∨
        ∃ x, x ≠ "" ∧ d.room = some x ∧ r.room = some x) →
      ∃ m, createSchedule env d st = Except.error m) ∧
    (∀ (env : NameEnv) (i : Nat) (u : ScheduleUpdate) (st : ScheduleState)
        (e r : Schedule),
      st.schedules.find? (fun s => s.id == i) = some e →
      r ∈ st.schedules → r.id ≠ i →
      r.day_of_week = (applyUpdate e u).day_of_week →
      specOverlap (applyUpdate e u).start_time (applyUpdate e u).end_time
        r.start_time r.end_time →
      (r.teacher_id = (applyUpdate e u).teacher_id ∨
        r.class_id = (applyUpdate e u).class_id ∨
        ∃ x, x ≠ "" ∧ (applyUpdate e u).room = some x ∧ r.room = some x) →
      ∃ m, updateSchedule env i u st = Except.error m) ∧
    (∀ st : ScheduleState, Reachable st → NoOverlaps st.schedules) := by
  refine ⟨?_, ?_, ?_⟩
  · intro env d st r hr hday hov hclash
    have hm : conflictRowMatch d none r = true := by
      unfold conflictRowMatch
      simp only [Bool.and_eq_true, beq_iff_eq]
      exact ⟨⟨hday, specOverlap_imp_overlapWhere hov⟩, trivial⟩
    obtain ⟨m, hm'⟩ := @check_error_of_conflict env _ _ _ _ hr hm hclash
    refine ⟨m, ?_⟩
    unfold createSchedule
    rw [hm']
  · intro env i u st e r hf hr hrne hday hov hclash
    cases hres : updateSchedule env i u st with
    | error m => exact ⟨m, rfl⟩
    | ok st' =>
      exfalso
      obtain ⟨e', hf', hchk, _⟩ := updateSchedule_ok_elim hres
      rw [hf] at hf'
      injection hf' with hf'
      subst hf'
      have hm : conflictRowMatch (toInput (applyUpdate e u)) (some i) r
          = true := by
        unfold conflictRowMatch
        simp only [Bool.and_eq_true, beq_iff_eq]
        exact ⟨⟨hday, specOverlap_imp_overlapWhere hov⟩, by simp [hrne]⟩
      obtain ⟨m, hm'⟩ := @check_error_of_conflict env _ _ _ _ hr hm hclash
      rw [hchk] at hm'
      exact absurd hm' (by simp)
  · intro st hst
    exact List.Pairwise.imp (fun hab => hab.1) (reachable_wf hst).1

/-- Concrete name environment for witnesses. -/
def wEnv : NameEnv := ⟨fun _ => "X IPA 1", fun _ => "Matematika", fun _ => "Budi"⟩

/-- Concrete stored schedule: teacher 1, class 1, Monday 08:00 to 09:00. -/
def wRow : Schedule := ⟨1, 1, 1, 1, "Senin", 28800, 32400, none⟩

/-- Concrete second stored schedule: teacher 2, class 2, Monday 10:00 to
11:00. -/
def wRow2 : Schedule := ⟨2, 2, 1, 2, "Senin", 36000, 39600, none⟩

/-- Concrete one-row state. -/
def wSt : ScheduleState := ⟨2, [wRow]⟩

/-- Concrete two-row state. -/
def wSt2 : ScheduleState := ⟨3, [wRow, wRow2]⟩

/-- Concrete create payload clashing with wRow on the teacher. -/
def wInput : ScheduleInput := ⟨2, 1, 1, "Senin", 30000, 33000, none⟩

/-- Concrete update payload moving wRow2 onto teacher 1 at a time that
overlaps wRow. -/
def wUpd : ScheduleUpdate :=
  ⟨none, none, some 1, none, some 30000, some 33000, none⟩

/-- Witness for C1: the conflicting create and the conflicting update are
both rejected on the concrete states, and the empty initial state satisfies
the invariant. -/
theorem C1_no_double_booking_witness :
    (∃ m, createSchedule wEnv wInput wSt = Except.error m) ∧
    (∃ m, updateSchedule wEnv 2 wUpd wSt2 = Except.error m) ∧
    NoOverlaps (ScheduleState.mk 1 []).schedules :=
  ⟨C1_no_double_booking.1 wEnv wInput wSt wRow (by decide) (by decide)
      (by decide) (Or.inl (by decide)),
   C1_no_double_booking.2.1 wEnv 2 wUpd wSt2 wRow2 wRow (by decide)
      (by decide) (by decide) (by decide) (by decide) (Or.inl (by decide)),
   C1_no_double_booking.2.2 ⟨1, []⟩ Reachable.init⟩

/-- Attendance row: the owning person (teacher or student), the status
string (Masuk or Pulang) and the timestamp in seconds since the epoch of
the person's local calendar. -/
structure AttendanceRecord where
  person_id : Nat
  status : String
  timestamp : Nat
deriving Repr, DecidableEq

/-- Local midnight preceding an instant, as computed by setHours(0,0,0,0)
on the current date. -/
def dayStart (t : Nat) : Nat := t / 86400 * 86400

/-- The duplicate query of the attendance service: first row of the same
person with the same status whose timestamp lies in the window from the
current local midnight (inclusive) to the next local midnight
(exclusive). -/
def duplicateQuery (personId : Nat) (status : String) (now : Nat)
    (store : List AttendanceRecord) : Option AttendanceRecord :=
  store.find? (fun r => r.person_id == personId && r.status == status &&
    (decide (dayStart now ≤ r.timestamp) &&
     decide (r.timestamp < dayStart now + 86400)))

/-- Shared tail of recordTeacherAttendance and recordStudentAttendance:
reject when the duplicate query finds a row, otherwise insert a new row
stamped with the current instant. -/
def recordAttendanceCore (personId : Nat) (status : String) (now : Nat)
    (kind : String) (store : List AttendanceRecord) :
    Except String (List AttendanceRecord) :=
  match duplicateQuery personId status now store with
  | some _ => .error (kind ++ " already recorded " ++ status.toLower
      ++ " attendance today")
  | none => .ok (store ++ [⟨personId, status, now⟩])

/-- recordTeacherAttendance: look the teacher up, then run the duplicate
guard and insert. -/
def recordTeacherAttendance (teachers : List Nat) (teacherId : Nat)
    (status : String) (now : Nat) (store : List AttendanceRecord) :
    Except String (List AttendanceRecord) :=
  match teachers.find? (fun t => t == teacherId) with
  | none => .error "Teacher not found"
  | some _ => recordAttendanceCore teacherId status now "Teacher" store

/-- Student row as the rest of the repository defines it: the class
membership foreign key is current_class_id (classService reads
student.current_class_id from a bare findUnique and updates the
current_class_id column; studentService filters, creates and groups by
current_class_id; the attendance service itself includes the current_class
relation). No code writes a class_id column on Student. -/
structure Student where
  id : Nat
  current_class_id : Option Nat
deriving Repr, DecidableEq

/-- The value the attendance service reads as student.class_id: the
Student model has no class_id column, so the property access yields
undefined whatever the row holds. -/
def studentClassIdRead (_student : Student) : Option Nat := none

/-- recordStudentAttendance: look the student and the schedule up, then
compare the student.class_id read against the schedule's class id with
strict inequality (undefined never equals a BigInt, so the comparison
fails for every student) before the duplicate guard and the insert. -/
def recordStudentAttendance (students : List Student)
    (schedules : List Schedule) (studentId scheduleId : Nat)
    (status : String) (now : Nat) (store : List AttendanceRecord) :
    Except String (List AttendanceRecord) :=
  match students.find? (fun s => s.id == studentId) with
  | none => .error "Student not found"
  | some student =>
    match schedules.find? (fun s => s.id == scheduleId) with
    | none => .error "Schedule not found"
    | some schedule =>
      if studentClassIdRead student = some schedule.class_id then
        recordAttendanceCore studentId status now "Student" store
      else .error "Student does not belong to this class"

/-- At most one record per person, status and calendar day. -/
def NoDupAttendance (l : List AttendanceRecord) : Prop :=
  l.Pairwise (fun a b => ¬(a.person_id = b.person_id ∧ a.status = b.status ∧
    dayStart a.timestamp = dayStart b.timestamp))

/-- Attendance tables reachable from empty through the two record
operations, with arbitrary person/schedule environments and clocks. -/
inductive AttReachable : List AttendanceRecord → Prop where
  | init : AttReachable []
  | teacher {store store' : List AttendanceRecord} {teachers : List Nat}
      {tid : Nat} {status : String} {now : Nat} :
      AttReachable store →
      recordTeacherAttendance teachers tid status now store =
        Except.ok store' →
      AttReachable store'
  | student {store store' : List AttendanceRecord} {students : List Student}
      {schedules : List Schedule} {sid schid : Nat} {status : String}
      {now : Nat} :
      AttReachable store →
      recordStudentAttendance students schedules sid schid status now store =
        Except.ok store' →
      AttReachable store'

/-- A successful core insert found no duplicate and appended the new
row. -/
theorem recordAttendanceCore_ok_elim {personId : Nat} {status : String}
    {now : Nat} {kind : String} {store store' : List AttendanceRecord}
    (h : recordAttendanceCore personId status now kind store =
      Except.ok store') :
    duplicateQuery personId status now store = none ∧
      store' = store ++ [⟨personId, status, now⟩] := by
  unfold recordAttendanceCore at h
  split at h
  · exact absurd h (by simp)
  · rename_i hq
    injection h with h
    exact ⟨hq, h.symm⟩

/-- A successful teacher record ran the shared core. -/
theorem recordTeacherAttendance_ok_elim {teachers : List Nat} {tid : Nat}
    {status : String} {now : Nat} {store store' : List AttendanceRecord}
    (h : recordTeacherAttendance teachers tid status now store =
      Except.ok store') :
    recordAttendanceCore tid status now "Teacher" store = Except.ok store' := by
  unfold recordTeacherAttendance at h
  split at h
  · exact absurd h (by simp)
  · exact h

/-- A successful student record ran the shared core. -/
theorem recordStudentAttendance_ok_elim {students : List Student}
    {schedules : List Schedule} {sid schid : Nat} {status : String}
    {now : Nat} {store store' : List AttendanceRecord}
    (h : recordStudentAttendance students schedules sid schid status now
      store = Except.ok store') :
    recordAttendanceCore sid status now "Student" store = Except.ok store' := by
  unfold recordStudentAttendance at h
  split at h
  · exact absurd h (by simp)
  · split at h
    · exact absurd h (by simp)
    · split at h
      · exact h
      · exact absurd h (by simp)

/-- The shared core preserves the one-record-per-day invariant. -/
theorem recordAttendanceCore_nodup {personId : Nat} {status : String}
    {now : Nat} {kind : String} {store store' : List AttendanceRecord}
    (h : recordAttendanceCore personId status now kind store =
      Except.ok store')
    (hw : NoDupAttendance store) : NoDupAttendance store' := by
  obtain ⟨hq, rfl⟩ := recordAttendanceCore_ok_elim h
  rw [NoDupAttendance, List.pairwise_append]
  refine ⟨hw, by simp, ?_⟩
  intro a ha b hb
  rw [List.mem_singleton] at hb
  subst hb
  rintro ⟨hp, hs, hd⟩
  have hnone := List.find?_eq_none.mp hq a ha
  apply hnone
  simp only [Bool.and_eq_true, beq_iff_eq, decide_eq_true_eq]
  refine ⟨⟨hp, hs⟩, ?_, ?_⟩
  · simp only [dayStart] at hd ⊢
    omega
  · simp only [dayStart] at hd ⊢
    omega

/-- Every reachable attendance table satisfies the invariant. -/
theorem attReachable_nodup {store : List AttendanceRecord}
    (h : AttReachable store) : NoDupAttendance store := by
  induction h with
  | init => exact List.Pairwise.nil
  | teacher _ hok ih =>
    exact recordAttendanceCore_nodup (recordTeacherAttendance_ok_elim hok) ih
  | student _ hok ih =>
    exact recordAttendanceCore_nodup (recordStudentAttendance_ok_elim hok) ih

/-- C3: the teacher path behaves as the claim states: a second record for
the same teacher and status in the current local day window is rejected
with the already-recorded message, nothing is inserted, and every
reachable table keeps at most one record per person, status and day.  The
student path never issues that rejection: the guard reads the class_id
column the Student model does not have, so every student request, a
duplicate check-in included, is rejected earlier with the class-membership
error and the duplicate guard is dead code. -/
theorem C3_attendance_once_per_day :
    (∀ (teachers : List Nat) (tid : Nat) (status : String) (now : Nat)
        (store : List AttendanceRecord) (r : AttendanceRecord),
      tid ∈ teachers → r ∈ store → r.person_id = tid → r.status = status →
      dayStart now ≤ r.timestamp → r.timestamp < dayStart now + 86400 →
      recordTeacherAttendance teachers tid status now store =
        Except.error ("Teacher" ++ " already recorded " ++ status.toLower
          ++ " attendance today")) ∧
    (∀ (students : List Student) (schedules : List Schedule)
        (sid schid : Nat) (status : String) (now : Nat)
        (store : List AttendanceRecord) (student : Student)
        (schedule : Schedule),
      students.find? (fun s => s.id == sid) = some student →
      schedules.find? (fun s => s.id == schid) = some schedule →
      recordStudentAttendance students schedules sid schid status now store =
        Except.error "Student does not belong to this class") ∧
    (∀ store : List AttendanceRecord,
      AttReachable store → NoDupAttendance store) := by
  have hdup : ∀ (pid : Nat) (status : String) (now : Nat)
      (store : List AttendanceRecord) (r : AttendanceRecord),
      r ∈ store → r.person_id = pid → r.status = status →
      dayStart now ≤ r.timestamp → r.timestamp < dayStart now + 86400 →
      ∃ x, duplicateQuery pid status now store = some x := by
    intro pid status now store r hr hp hs h1 h2
    have hsome : (duplicateQuery pid status now store).isSome = true := by
      rw [duplicateQuery, List.find?_isSome]
      exact ⟨r, hr, by simp [hp, hs, h1, h2]⟩
    exact Option.isSome_iff_exists.mp hsome
  refine ⟨?_, ?_, ?_⟩
  · intro teachers tid status now store r hmem hr hp hs h1 h2
    obtain ⟨x, hx⟩ := hdup tid status now store r hr hp hs h1 h2
    have hfind : (teachers.find? (fun t => t == tid)).isSome = true := by
      rw [List.find?_isSome]
      exact ⟨tid, hmem, by simp⟩
    obtain ⟨tt, htt⟩ := Option.isSome_iff_exists.mp hfind
    unfold recordTeacherAttendance
    rw [htt]
    show recordAttendanceCore tid status now "Teacher" store =
      Except.error ("Teacher" ++ " already recorded " ++ status.toLower
        ++ " attendance today")
    unfold recordAttendanceCore
    rw [hx]
  · intro students schedules sid schid status now store student schedule
      hf1 hf2
    unfold recordStudentAttendance
    rw [hf1]
    show (match schedules.find? (fun s => s.id == schid) with
      | none => Except.error "Schedule not found"
      | some schedule =>
        if studentClassIdRead student = some schedule.class_id then
          recordAttendanceCore sid status now "Student" store
        else Except.error "Student does not belong to this class") =
      Except.error "Student does not belong to this class"
    rw [hf2]
    show (if studentClassIdRead student = some schedule.class_id then
        recordAttendanceCore sid status now "Student" store
      else Except.error "Student does not belong to this class") =
      Except.error "Student does not belong to this class"
    rw [if_neg (by simp [studentClassIdRead])]
  · intro store h
    exact attReachable_nodup h

/-- Concrete teacher attendance row for the witnesses: person 7, Masuk,
during day one. -/
def wAtt : AttendanceRecord := ⟨7, "Masuk", 90000⟩

/-- Witness for C3: the duplicate teacher check-in is rejected with the
already-recorded message; the duplicate student check-in (student 7
enrolled in class 1, schedule 1 of class 1, an existing Masuk row today)
is rejected with the class-membership error instead; and the empty table
satisfies the invariant. -/
theorem C3_attendance_once_per_day_witness :
    recordTeacherAttendance [7] 7 "Masuk" 100000 [wAtt] =
      Except.error ("Teacher" ++ " already recorded " ++ "Masuk".toLower
        ++ " attendance today") ∧
    recordStudentAttendance [⟨7, some 1⟩] [wRow] 7 1 "Masuk" 100000 [wAtt] =
      Except.error "Student does not belong to this class" ∧
    NoDupAttendance [] :=
  ⟨C3_attendance_once_per_day.1 [7] 7 "Masuk" 100000 [wAtt] wAtt
      (by decide) (by decide) (by decide) (by decide) (by decide) (by decide),
   C3_attendance_once_per_day.2.1 [⟨7, some 1⟩] [wRow] 7 1 "Masuk" 100000
      [wAtt] ⟨7, some 1⟩ wRow rfl rfl,
   C3_attendance_once_per_day.2.2 [] AttReachable.init⟩

/-- C10: the class guard does fire before the duplicate check and the
insert and leaves the table unchanged, but not by comparing memberships:
the student.class_id read is undefined because the Student model's foreign
key is current_class_id, so every student whose row and schedule exist is
rejected with the class-membership error, one enrolled in the schedule's
class included, and recordStudentAttendance never inserts anything. -/
theorem C10_student_class_guard :
    (∀ (students : List Student) (schedules : List Schedule)
        (sid schid : Nat) (status : String) (now : Nat)
        (store : List AttendanceRecord) (student : Student)
        (schedule : Schedule),
      students.find? (fun s => s.id == sid) = some student →
      schedules.find? (fun s => s.id == schid) = some schedule →
      recordStudentAttendance students schedules sid schid status now store =
        Except.error "Student does not belong to this class") ∧
    (∀ (students : List Student) (schedules : List Schedule)
        (sid schid : Nat) (status : String) (now : Nat)
        (store store' : List AttendanceRecord),
      recordStudentAttendance students schedules sid schid status now store ≠
        Except.ok store') := by
  constructor
  · intro students schedules sid schid status now store student schedule
      hf1 hf2
    unfold recordStudentAttendance
    rw [hf1]
    show (match schedules.find? (fun s => s.id == schid) with
      | none => Except.error "Schedule not found"
      | some schedule =>
        if studentClassIdRead student = some schedule.class_id then
          recordAttendanceCore sid status now "Student" store
        else Except.error "Student does not belong to this class") =
      Except.error "Student does not belong to this class"
    rw [hf2]
    show (if studentClassIdRead student = some schedule.class_id then
        recordAttendanceCore sid status now "Student" store
      else Except.error "Student does not belong to this class") =
      Except.error "Student does not belong to this class"
    rw [if_neg (by simp [studentClassIdRead])]
  · intro students schedules sid schid status now store store' h
    unfold recordStudentAttendance at h
    split at h
    · exact absurd h (by simp)
    · split at h
      · exact absurd h (by simp)
      · split at h
        · rename_i hcl
          exact absurd hcl (by simp [studentClassIdRead])
        · exact absurd h (by simp)

/-- Witness for C10: student 7, enrolled in class 1, with the schedule of
class 1, is rejected with the class-membership error and nothing is
inserted. -/
theorem C10_student_class_guard_witness :
    recordStudentAttendance [⟨7, some 1⟩] [wRow] 7 1 "Masuk" 100 [] =
      Except.error "Student does not belong to this class" ∧
    recordStudentAttendance [⟨7, some 1⟩] [wRow] 7 1 "Masuk" 100 [] ≠
      Except.ok [⟨7, "Masuk", 100⟩] :=
  ⟨C10_student_class_guard.1 [⟨7, some 1⟩] [wRow] 7 1 "Masuk" 100 []
      ⟨7, some 1⟩ wRow rfl rfl,
   C10_student_class_guard.2 [⟨7, some 1⟩] [wRow] 7 1 "Masuk" 100 []
      [⟨7, "Masuk", 100⟩]⟩

/-- Guard used by the Pagination helper of utils/helpers:
parseInt(x) > 0 ? parseInt(x) : dflt, with none modelling NaN. -/
def posOrDefault : Option Int → Int → Int
  | some x, dflt => if 0 < x then x else dflt
  | none, dflt => dflt

/-- Guard used inline by getAllSchedules: parseInt(x) or-else dflt; NaN and
zero fall back to the default, every other value (negatives included)
passes through. -/
def orDefault : Option Int → Int → Int
  | some x, dflt => if x = 0 then dflt else x
  | none, dflt => dflt

/-- Math.ceil of the quotient of two integers; JavaScript number division
of integer operands is exact here, so the quotient is modelled in ℚ. -/
def mathCeilDiv (a b : Int) : Int := ⌈(a : ℚ) / (b : ℚ)⌉

/-- Pagination metadata, as produced by the Pagination helper and by the
inline pagination object of getAllSchedules. -/
structure Pagination where
  page : Int
  limit : Int
  total : Int
  totalPages : Int
  hasNext : Bool
  hasPrev : Bool
deriving Repr, DecidableEq

/-- Constructor of the Pagination helper class. -/
def mkPagination (page limit : Option Int) (total : Int) : Pagination :=
  { page := posOrDefault page 1,
    limit := posOrDefault limit 10,
    total := total,
    totalPages := mathCeilDiv total (posOrDefault limit 10),
    hasNext := decide (posOrDefault page 1 <
      mathCeilDiv total (posOrDefault limit 10)),
    hasPrev := decide (1 < posOrDefault page 1) }

/-- The getOffset method: (page - 1) * limit. -/
def Pagination.getOffset (pg : Pagination) : Int := (pg.page - 1) * pg.limit

/-- The inline pagination object built by getAllSchedules from currentPage
and currentLimit. -/
def schedulesPagination (page limit : Option Int) (total : Int) : Pagination :=
  { page := orDefault page 1,
    limit := orDefault limit 10,
    total := total,
    totalPages := mathCeilDiv total (orDefault limit 10),
    hasNext := decide (orDefault page 1 <
      mathCeilDiv total (orDefault limit 10)),
    hasPrev := decide (1 < orDefault page 1) }

/-- For a positive divisor, the rational ceiling of the quotient is the
add-divisor-minus-one integer division. -/
theorem mathCeilDiv_eq (t l : Int) (hl : 0 < l) :
    mathCeilDiv t l = (t + l - 1) / l := by
  have hl0 : l ≠ 0 := ne_of_gt hl
  have hmod := Int.emod_nonneg (t + l - 1) hl0
  have hmod2 := Int.emod_lt_of_pos (t + l - 1) hl
  have hdm := Int.ediv_add_emod (t + l - 1) l
  set q := (t + l - 1) / l with hq
  set r := (t + l - 1) % l with hr
  have hlq : (0 : ℚ) < (l : ℚ) := by exact_mod_cast hl
  unfold mathCeilDiv
  rw [Int.ceil_eq_iff]
  constructor
  · rw [lt_div_iff₀ hlq]
    have hint : (q - 1) * l < t := by nlinarith
    calc ((q : ℚ) - 1) * l = (((q - 1) * l : Int) : ℚ) := by push_cast; ring
    _ < (t : ℚ) := by exact_mod_cast hint
  · rw [div_le_iff₀ hlq]
    have hint : t ≤ q * l := by nlinarith
    calc (t : ℚ) ≤ ((q * l : Int) : ℚ) := by exact_mod_cast hint
    _ = (q : ℚ) * l := by push_cast; ring

/-- C4: for positive page and limit and nonnegative total, both pagination
objects carry the given page and limit, totalPages is the ceiling of
total over limit, hasNext holds exactly when page is below totalPages, and
hasPrev holds exactly when page is above one. -/
theorem C4_pagination_metadata (p l t : Int) (hp : 1 ≤ p) (hl : 1 ≤ l)
    (ht : 0 ≤ t) :
    ((mkPagination (some p) (some l) t).page = p ∧
     (mkPagination (some p) (some l) t).limit = l ∧
     (mkPagination (some p) (some l) t).totalPages = (t + l - 1) / l ∧
     ((mkPagination (some p) (some l) t).hasNext = true ↔
       (mkPagination (some p) (some l) t).page <
         (mkPagination (some p) (some l) t).totalPages) ∧
     ((mkPagination (some p) (some l) t).hasPrev = true ↔
       1 < (mkPagination (some p) (some l) t).page)) ∧
    ((schedulesPagination (some p) (some l) t).page = p ∧
     (schedulesPagination (some p) (some l) t).limit = l ∧
     (schedulesPagination (some p) (some l) t).totalPages =
       (t + l - 1) / l ∧
     ((schedulesPagination (some p) (some l) t).hasNext = true ↔
       (schedulesPagination (some p) (some l) t).page <
         (schedulesPagination (some p) (some l) t).totalPages) ∧
     ((schedulesPagination (some p) (some l) t).hasPrev = true ↔
       1 < (schedulesPagination (some p) (some l) t).page)) := by
  have hpp : posOrDefault (some p) 1 = p := by
    simp only [posOrDefault]
    rw [if_pos (by omega)]
  have hll : posOrDefault (some l) 10 = l := by
    simp only [posOrDefault]
    rw [if_pos (by omega)]
  have hpo : orDefault (some p) 1 = p := by
    simp only [orDefault]
    rw [if_neg (by omega)]
  have hlo : orDefault (some l) 10 = l := by
    simp only [orDefault]
    rw [if_neg (by omega)]
  refine ⟨⟨?_, ?_, ?_, ?_, ?_⟩, ?_, ?_, ?_, ?_, ?_⟩ <;>
    simp [mkPagination, schedulesPagination, hpp, hll, hpo, hlo,
      mathCeilDiv_eq t l (by omega)]

/-- Witness for C4: the metadata relations at page 2, limit 10, total 25. -/
theorem C4_pagination_metadata_witness :
    (1 : Int) ≤ 2 ∧ (1 : Int) ≤ 10 ∧ (0 : Int) ≤ 25 ∧
      ((mkPagination (some 2) (some 10) 25).page = 2 ∧
       (mkPagination (some 2) (some 10) 25).limit = 10 ∧
       (mkPagination (some 2) (some 10) 25).totalPages =
         ((25 : Int) + 10 - 1) / 10 ∧
       ((mkPagination (some 2) (some 10) 25).hasNext = true ↔
         (mkPagination (some 2) (some 10) 25).page <
           (mkPagination (some 2) (some 10) 25).totalPages) ∧
       ((mkPagination (some 2) (some 10) 25).hasPrev = true ↔
         1 < (mkPagination (some 2) (some 10) 25).page)) ∧
      ((schedulesPagination (some 2) (some 10) 25).page = 2 ∧
       (schedulesPagination (some 2) (some 10) 25).limit = 10 ∧
       (schedulesPagination (some 2) (some 10) 25).totalPages =
         ((25 : Int) + 10 - 1) / 10 ∧
       ((schedulesPagination (some 2) (some 10) 25).hasNext = true ↔
         (schedulesPagination (some 2) (some 10) 25).page <
           (schedulesPagination (some 2) (some 10) 25).totalPages) ∧
       ((schedulesPagination (some 2) (some 10) 25).hasPrev = true ↔
         1 < (schedulesPagination (some 2) (some 10) 25).page)) :=
  ⟨by decide, by decide, by decide,
    C4_pagination_metadata 2 10 25 (by decide) (by decide) (by decide)⟩

/-- C9: whatever the raw page and limit inputs (NaN, zero or negative
included), the Pagination constructor yields page and limit at least one
(with defaults one and ten), so the ceiling divisor is never zero, and
getOffset equals (page - 1) * limit, which is never negative. -/
theorem C9_pagination_input_guards :
    (∀ (page limit : Option Int) (t : Int),
      1 ≤ (mkPagination page limit t).page ∧
      1 ≤ (mkPagination page limit t).limit ∧
      (mkPagination page limit t).getOffset =
        ((mkPagination page limit t).page - 1) *
          (mkPagination page limit t).limit ∧
      0 ≤ (mkPagination page limit t).getOffset) ∧
    (∀ (other : Option Int) (t v : Int), v ≤ 0 →
      (mkPagination (some v) other t).page = 1 ∧
      (mkPagination other (some v) t).limit = 10) ∧
    (∀ (other : Option Int) (t : Int),
      (mkPagination none other t).page = 1 ∧
      (mkPagination other none t).limit = 10) := by
  have hge : ∀ (v : Option Int) (d : Int), 1 ≤ d → 1 ≤ posOrDefault v d := by
    intro v d hd
    cases v with
    | none => exact hd
    | some x =>
      simp only [posOrDefault]
      by_cases hx : 0 < x
      · rw [if_pos hx]
        omega
      · rw [if_neg hx]
        exact hd
  refine ⟨?_, ?_, ?_⟩
  · intro page limit t
    have h1 : 1 ≤ posOrDefault page 1 := hge page 1 (by omega)
    have h2 : 1 ≤ posOrDefault limit 10 := hge limit 10 (by omega)
    refine ⟨h1, h2, rfl, ?_⟩
    show 0 ≤ (posOrDefault page 1 - 1) * posOrDefault limit 10
    exact mul_nonneg (by omega) (by omega)
  · intro other t v hv
    constructor
    · show posOrDefault (some v) 1 = 1
      simp only [posOrDefault]
      rw [if_neg (by omega)]
    · show posOrDefault (some v) 10 = 10
      simp only [posOrDefault]
      rw [if_neg (by omega)]
  · intro other t
    exact ⟨rfl, rfl⟩

/-- Witness for C9: the guards at the concrete inputs minus three (for the
hypothesis-bearing part) and NaN. -/
theorem C9_pagination_input_guards_witness :
    (1 ≤ (mkPagination (some (-3)) (some 0) 25).page ∧
     1 ≤ (mkPagination (some (-3)) (some 0) 25).limit ∧
     (mkPagination (some (-3)) (some 0) 25).getOffset =
       ((mkPagination (some (-3)) (some 0) 25).page - 1) *
         (mkPagination (some (-3)) (some 0) 25).limit ∧
     0 ≤ (mkPagination (some (-3)) (some 0) 25).getOffset) ∧
    ((mkPagination (some (-3)) (some 7) 25).page = 1 ∧
     (mkPagination (some 7) (some (-3)) 25).limit = 10) ∧
    ((mkPagination none (some 7) 25).page = 1 ∧
     (mkPagination (some 7) none 25).limit = 10) :=
  ⟨C9_pagination_input_guards.1 (some (-3)) (some 0) 25,
   C9_pagination_input_guards.2.1 (some 7) 25 (-3) (by decide),
   C9_pagination_input_guards.2.2 (some 7) 25⟩

/-- Value of a decimal digit character. -/
def digitVal (c : Char) : Nat := c.toNat - 48

/-- Decimal digit test. -/
def isDigitChar (c : Char) : Bool :=
  decide (48 ≤ c.toNat) && decide (c.toNat ≤ 57)

/-- Parse a two-digit-field HH:MM:SS string to seconds of day; this is the
shape the Date constructor of the create path accepts. -/
def parseTimeString (s : String) : Option Nat :=
  match s.data with
  | [h1, h2, c1, m1, m2, c2, x1, x2] =>
    if isDigitChar h1 && isDigitChar h2 && (c1 == ':') && isDigitChar m1 &&
        isDigitChar m2 && (c2 == ':') && isDigitChar x1 && isDigitChar x2 then
      if 10 * digitVal h1 + digitVal h2 < 24 ∧
          10 * digitVal m1 + digitVal m2 < 60 ∧
          10 * digitVal x1 + digitVal x2 < 60 then
        some ((10 * digitVal h1 + digitVal h2) * 3600 +
          (10 * digitVal m1 + digitVal m2) * 60 +
          (10 * digitVal x1 + digitVal x2))
      else none
    else none
  | _ => none

/-- Two-digit decimal rendering of a value below one hundred, as
toISOString pads its fields. -/
def pad2 (n : Nat) : String :=
  ⟨[Char.ofNat (48 + n / 10), Char.ofNat (48 + n % 10)]⟩

/-- The HH:MM:SS portion of toISOString for a stored time of day in
seconds. -/
def formatTime (t : Nat) : String :=
  pad2 (t / 3600) ++ ":" ++ pad2 (t % 3600 / 60) ++ ":" ++ pad2 (t % 60)

/-- pad2 applied to the value of two digit characters returns exactly those
characters. -/
theorem pad2_digits {c1 c2 : Char} (h1 : isDigitChar c1 = true)
    (h2 : isDigitChar c2 = true) :
    pad2 (10 * digitVal c1 + digitVal c2) = ⟨[c1, c2]⟩ := by
  simp only [isDigitChar, Bool.and_eq_true, decide_eq_true_eq] at h1 h2
  unfold pad2 digitVal
  have hd1 : (10 * (c1.toNat - 48) + (c2.toNat - 48)) / 10 = c1.toNat - 48 := by
    omega
  have hd2 : (10 * (c1.toNat - 48) + (c2.toNat - 48)) % 10 = c2.toNat - 48 := by
    omega
  rw [hd1, hd2]
  have g1 : 48 + (c1.toNat - 48) = c1.toNat := by omega
  have g2 : 48 + (c2.toNat - 48) = c2.toNat := by omega
  rw [g1, g2, Char.ofNat_toNat, Char.ofNat_toNat]

/-- A parsed time is a valid second of day. -/
theorem parseTimeString_lt {s : String} {t : Nat}
    (h : parseTimeString s = some t) : t < 86400 := by
  unfold parseTimeString at h
  split at h
  · split at h
    · split at h
      · rename_i hrange
        injection h with h
        omega
      · exact absurd h (by simp)
    · exact absurd h (by simp)
  · exact absurd h (by simp)

/-- Formatting a successfully parsed time string reproduces it. -/
theorem format_parse_roundtrip {s : String} {t : Nat}
    (h : parseTimeString s = some t) : formatTime t = s := by
  obtain ⟨data⟩ := s
  unfold parseTimeString at h
  split at h
  · rename_i h1 h2 c1 m1 m2 c2 x1 x2 heq
    split at h
    · rename_i hdig
      split at h
      · rename_i hrange
        simp only [Bool.and_eq_true, beq_iff_eq] at hdig
        obtain ⟨⟨⟨⟨⟨⟨⟨d1, d2⟩, hc1⟩, d3⟩, d4⟩, hc2⟩, d5⟩, d6⟩ := hdig
        obtain ⟨r1, r2, r3⟩ := hrange
        injection h with h
        subst h
        subst hc1
        subst hc2
        have hvh : ((10 * digitVal h1 + digitVal h2) * 3600 +
            (10 * digitVal m1 + digitVal m2) * 60 +
            (10 * digitVal x1 + digitVal x2)) / 3600 =
            10 * digitVal h1 + digitVal h2 := by omega
        have hvm : ((10 * digitVal h1 + digitVal h2) * 3600 +
            (10 * digitVal m1 + digitVal m2) * 60 +
            (10 * digitVal x1 + digitVal x2)) % 3600 / 60 =
            10 * digitVal m1 + digitVal m2 := by omega
        have hvs : ((10 * digitVal h1 + digitVal h2) * 3600 +
            (10 * digitVal m1 + digitVal m2) * 60 +
            (10 * digitVal x1 + digitVal x2)) % 60 =
            10 * digitVal x1 + digitVal x2 := by omega
        unfold formatTime
        rw [hvh, hvm, hvs, pad2_digits d1 d2, pad2_digits d3 d4,
          pad2_digits d5 d6]
        subst heq
        rfl
      · exact absurd h (by simp)
    · exact absurd h (by simp)
  · exact absurd h (by simp)

/-- Time of day stored for a submitted time string parsed as local time on
a server whose UTC offset is tz seconds east: the Date holds the instant
shifted by the offset and the time column keeps its UTC time of day. -/
def storedTimeOfDay (tz : Int) (t : Nat) : Nat :=
  (((t : Int) - tz) % 86400).toNat

/-- Wire payload of createSchedule, times as submitted strings. -/
structure RawScheduleInput where
  class_id : Nat
  subject_id : Nat
  teacher_id : Nat
  day_of_week : String
  start_time : String
  end_time : String
  room : Option String
deriving Repr, DecidableEq

/-- createSchedule from the wire payload under server UTC offset tz: build
the two Dates from the submitted strings (a string the Date parser cannot
take yields an invalid Date and the operation fails), then run the conflict
check and the insert. -/
def createScheduleRaw (tz : Int) (env : NameEnv) (raw : RawScheduleInput)
    (st : ScheduleState) : Except String ScheduleState :=
  match parseTimeString raw.start_time, parseTimeString raw.end_time with
  | some ts, some te =>
    createSchedule env
      { class_id := raw.class_id, subject_id := raw.subject_id,
        teacher_id := raw.teacher_id, day_of_week := raw.day_of_week,
        start_time := storedTimeOfDay tz ts,
        end_time := storedTimeOfDay tz te, room := raw.room } st
  | _, _ => .error "Invalid Date"

/-- Serialized schedule as returned to the client: ids as decimal strings,
times rendered from the stored times of day through toISOString. -/
structure SerializedSchedule where
  id : String
  class_id : String
  subject_id : String
  teacher_id : String
  day_of_week : String
  start_time : String
  end_time : String
  room : Option String
deriving Repr, DecidableEq

/-- serializeSchedule of the schedule service. -/
def serializeSchedule (r : Schedule) : SerializedSchedule :=
  { id := toString r.id, class_id := toString r.class_id,
    subject_id := toString r.subject_id,
    teacher_id := toString r.teacher_id, day_of_week := r.day_of_week,
    start_time := formatTime r.start_time,
    end_time := formatTime r.end_time, room := r.room }

/-- Lookup step of getScheduleById: findUnique, then reject a missing
row. -/
def getScheduleByIdFind (i : Nat) (store : List Schedule) :
    Except String Schedule :=
  match store.find? (fun r => r.id == i) with
  | none => .error "Schedule not found"
  | some r => .ok r

/-- getScheduleById of the service: the try body is the lookup and the
serialization, and the catch replaces every failure message, the not-found
one included, with the generic retrieval failure. -/
def getScheduleById (i : Nat) (store : List Schedule) :
    Except String SerializedSchedule :=
  match getScheduleByIdFind i store with
  | .ok r => .ok (serializeSchedule r)
  | .error _ => .error "Failed to retrieve schedule"

/-- A find? over an appended list skips a first part that finds nothing. -/
theorem find?_append_of_none {α : Type} {p : α → Bool} {l1 : List α}
    (l2 : List α) (h : l1.find? p = none) :
    (l1 ++ l2).find? p = l2.find? p := by
  induction l1 with
  | nil => rfl
  | cons a t ih =>
    by_cases hp : p a = true
    · rw [List.find?_cons_of_pos _ hp] at h
      exact absurd h (by simp)
    · rw [List.find?_cons_of_neg _ hp] at h
      rw [List.cons_append, List.find?_cons_of_neg _ hp]
      exact ih h

/-- C5 (amended): under a server whose UTC offset is a whole number of
days (offset zero in particular), creating a schedule and fetching it by
its id returns the submitted values: ids as decimal strings, day and
(validated, non-empty) room unchanged, and the submitted time strings; for
other offsets the returned time strings are the submitted times shifted by
the offset (see the counterexample). -/
theorem C5_create_get_roundtrip (tz : Int) (env : NameEnv)
    (raw : RawScheduleInput) (st st' : ScheduleState)
    (hfresh : ∀ r ∈ st.schedules, r.id < st.nextId)
    (htz : tz % 86400 = 0)
    (hok : createScheduleRaw tz env raw st = Except.ok st') :
    ∃ ser, getScheduleById st.nextId st'.schedules = Except.ok ser ∧
      ser.id = toString st.nextId ∧
      ser.class_id = toString raw.class_id ∧
      ser.subject_id = toString raw.subject_id ∧
      ser.teacher_id = toString raw.teacher_id ∧
      ser.day_of_week = raw.day_of_week ∧
      ser.start_time = raw.start_time ∧
      ser.end_time = raw.end_time ∧
      (raw.room ≠ some "" → ser.room = raw.room) := by
  unfold createScheduleRaw at hok
  split at hok
  case h_2 => exact absurd hok (by simp)
  rename_i ts te hts hte
  obtain ⟨hchk, rfl⟩ := createSchedule_ok_elim hok
  have hstored : ∀ u : Nat, u < 86400 → storedTimeOfDay tz u = u := by
    intro u hu
    unfold storedTimeOfDay
    rw [Int.sub_emod, htz, Int.sub_zero,
      Int.emod_emod_of_dvd _ (dvd_refl (86400 : Int)),
      Int.emod_eq_of_lt (by omega) (by omega)]
    omega
  have hnone : st.schedules.find? (fun r => r.id == st.nextId) = none := by
    rw [List.find?_eq_none]
    intro a ha
    have := hfresh a ha
    simp only [beq_iff_eq]
    omega
  refine ⟨serializeSchedule (insertedRow
      { class_id := raw.class_id, subject_id := raw.subject_id,
        teacher_id := raw.teacher_id, day_of_week := raw.day_of_week,
        start_time := storedTimeOfDay tz ts,
        end_time := storedTimeOfDay tz te, room := raw.room } st.nextId),
    ?_, ?_⟩
  · unfold getScheduleById getScheduleByIdFind
    rw [find?_append_of_none _ hnone,
      List.find?_cons_of_pos _ (by simp [insertedRow])]
  · refine ⟨rfl, rfl, rfl, rfl, rfl, ?_, ?_, ?_⟩
    · show formatTime (storedTimeOfDay tz ts) = raw.start_time
      rw [hstored ts (parseTimeString_lt hts)]
      exact format_parse_roundtrip hts
    · show formatTime (storedTimeOfDay tz te) = raw.end_time
      rw [hstored te (parseTimeString_lt hte)]
      exact format_parse_roundtrip hte
    · intro hroom
      show (if roomTruthy raw.room then raw.room else none) = raw.room
      cases hrr : raw.room with
      | none => rw [if_neg (by simp [roomTruthy])]
      | some x =>
        have hx : x ≠ "" := by
          intro hceq
          exact hroom (by rw [hrr, hceq])
        rw [if_pos (by simp [roomTruthy, hx])]

/-- C5 (counterexample): on a server at UTC offset +7 hours (25200
seconds, the offset the create path is exposed to because it parses the
submitted time as local while the stored and serialized value is the UTC
time of day), creating a schedule at 08:00:00 and fetching it returns
01:00:00, not the submitted string. -/
theorem C5_counterexample :
    createScheduleRaw 25200 wEnv
        ⟨1, 2, 3, "Senin", "08:00:00", "09:00:00", none⟩ ⟨1, []⟩ =
      Except.ok ⟨2, [⟨1, 1, 2, 3, "Senin", 3600, 7200, none⟩]⟩ ∧
    getScheduleById 1 [⟨1, 1, 2, 3, "Senin", 3600, 7200, none⟩] =
      Except.ok ⟨"1", "1", "2", "3", "Senin", "01:00:00", "02:00:00", none⟩ ∧
    "01:00:00" ≠ "08:00:00" := by
  refine ⟨rfl, rfl, ?_⟩
  decide

/-- Witness for C5: the round trip at UTC offset zero on the concrete
create of Monday 08:00:00 to 09:00:00. -/
theorem C5_create_get_roundtrip_witness :
    ∃ ser, getScheduleById 1
        (ScheduleState.mk 2
          [⟨1, 1, 2, 3, "Senin", 28800, 32400, none⟩]).schedules =
        Except.ok ser ∧
      ser.id = toString 1 ∧ ser.class_id = toString 1 ∧
      ser.subject_id = toString 2 ∧ ser.teacher_id = toString 3 ∧
      ser.day_of_week = "Senin" ∧ ser.start_time = "08:00:00" ∧
      ser.end_time = "09:00:00" ∧
      ((none : Option String) ≠ some "" → ser.room = none) :=
  C5_create_get_roundtrip 0 wEnv
    ⟨1, 2, 3, "Senin", "08:00:00", "09:00:00", none⟩ ⟨1, []⟩
    ⟨2, [⟨1, 1, 2, 3, "Senin", 28800, 32400, none⟩]⟩
    (by intro r hr; cases hr) (by decide) rfl

/-- The GET schedule-by-id controller: 200 on success, 404 for the exact
not-found message, 500 otherwise. -/
def getScheduleByIdController (i : Nat) (store : List Schedule) :
    Nat × String :=
  match getScheduleById i store with
  | .ok _ => (200, "Schedule retrieved successfully")
  | .error m =>
    if m = "Schedule not found" then (404, "Schedule not found")
    else (500, "Failed to retrieve schedule")

/-- C6: when no schedule has the requested id, the catch block of the
service has already replaced the not-found error with the generic
retrieval failure, so the controller's 404 branch cannot fire and the
response is 500 with Failed to retrieve schedule instead of the 404
Schedule not found the specification prescribes. -/
theorem C6_get_by_id_missing_returns_500 :
    ∀ (i : Nat) (store : List Schedule),
      store.find? (fun r => r.id == i) = none →
      getScheduleByIdController i store =
        (500, "Failed to retrieve schedule") ∧
      getScheduleByIdController i store ≠ (404, "Schedule not found") := by
  intro i store h
  have hg : getScheduleByIdController i store =
      (500, "Failed to retrieve schedule") := by
    unfold getScheduleByIdController getScheduleById getScheduleByIdFind
    rw [h]
    rfl
  refine ⟨hg, ?_⟩
  rw [hg]
  decide

/-- Witness for C6: the missing id 999 on the empty table. -/
theorem C6_get_by_id_missing_returns_500_witness :
    getScheduleByIdController 999 [] =
      (500, "Failed to retrieve schedule") ∧
    getScheduleByIdController 999 [] ≠ (404, "Schedule not found") :=
  C6_get_by_id_missing_returns_500 999 [] rfl

end STMADB
